import Mathlib

/-
Shallow embedding of the Rent-Payment-Automation browser client.

The repository contains two tiny JavaScript modules:
  * frontend/utils/steller.js — the wallet bridge: connectWallet() and
    getPublicKey(), thin wrappers over the browser-injected
    window.freighterApi object;
  * the lease manager module — createLease(assetId, duration, price),
    which fetches the signer's account, builds a one-operation
    soroban transaction invoking the deployed contract's create_lease
    entry point, has the wallet sign its XDR serialization and submits
    the deserialized signed envelope; plus a click handler wiring
    connectWallet and getPublicKey to a DOM button.

The embedding makes the external world explicit: an Env record carries
the presence of the wallet extension and the results every external
awaited call would produce (enable, getPublicKey, getAccount,
signTransaction, submitTransaction).  Each client function is a pure
Lean function from Env (and its JavaScript arguments) to a pair of
  * the list of observable external events the call performs, in order,
  * an Except JsError value: ok models the promise resolving, error
    models the promise rejecting (an await of a rejected promise aborts
    the rest of the async function body, which the match-on-error
    structure below reproduces exactly).
Argument values (assetId, duration, price) are an arbitrary type Val,
since the code neither inspects nor transforms them.
-/

namespace RentPayment

/-- A JavaScript runtime failure: either a TypeError raised by property
access on an absent object, or a rejection produced by an external
collaborator (ledger endpoint or wallet extension). -/
inductive JsError where
  | typeError (msg : String)
  | reason (msg : String)
deriving DecidableEq

/-- The ledger account snapshot returned by server.getAccount: the
account identifier and its sequence number. -/
structure Account where
  accountId : String
  sequenceNumber : Nat
deriving DecidableEq

/-- One operation of a transaction: a contract invocation with a method
name and its argument list. -/
structure Operation (Val : Type) where
  contract : String
  method : String
  args : List Val
deriving DecidableEq

/-- Contract.call from soroban-client: packages a contract id, an entry
point name and the argument list into one operation. -/
def Contract.call {Val : Type} (c : String) (method : String) (args : List Val) :
    Operation Val :=
  ⟨c, method, args⟩

/-- A built transaction, as produced by TransactionBuilder.build. -/
structure Transaction (Val : Type) where
  sourceAccount : Account
  fee : String
  networkPassphrase : String
  operations : List (Operation Val)
  timeout : Nat
deriving DecidableEq

/-- The XDR serialization of a built transaction (tx.toXDR()).  The
serialization is modelled as the identity wrapper, so an envelope equals
another exactly when the underlying transactions are equal. -/
structure XDREnvelope (Val : Type) where
  tx : Transaction Val
deriving DecidableEq

/-- tx.toXDR(): serialize the built transaction into its envelope. -/
def Transaction.toXDR {Val : Type} (tx : Transaction Val) : XDREnvelope Val :=
  ⟨tx⟩

/-- The second argument of freighterApi.signTransaction: the named
network the signature is requested for. -/
structure SignOpts where
  network : String
deriving DecidableEq

/-- The result of TransactionBuilder.fromXDR(signedXdr, passphrase):
the signed envelope string paired with the network passphrase it was
deserialized against. -/
structure DeserializedTx where
  envelope : String
  networkPassphrase : String
deriving DecidableEq

/-- Networks.TESTNET from soroban-client: the fixed test-network
passphrase. -/
def Networks.TESTNET : String := "Test SDF Network ; September 2015"

/-- The in-progress state of a TransactionBuilder chain. -/
structure TransactionBuilder (Val : Type) where
  sourceAccount : Account
  fee : String
  networkPassphrase : String
  operations : List (Operation Val)
  timeout : Nat
deriving DecidableEq

/-- new TransactionBuilder(account, \x7bfee, networkPassphrase\x7d). -/
def TransactionBuilder.start {Val : Type} (account : Account) (fee : String)
    (networkPassphrase : String) : TransactionBuilder Val :=
  ⟨account, fee, networkPassphrase, [], 0⟩

/-- builder.addOperation(op): appends one operation. -/
def TransactionBuilder.addOperation {Val : Type} (b : TransactionBuilder Val)
    (op : Operation Val) : TransactionBuilder Val :=
  { b with operations := b.operations ++ [op] }

/-- builder.setTimeout(n): sets the timeout window. -/
def TransactionBuilder.setTimeout {Val : Type} (b : TransactionBuilder Val)
    (n : Nat) : TransactionBuilder Val :=
  { b with timeout := n }

/-- builder.build(): the finished transaction. -/
def TransactionBuilder.build {Val : Type} (b : TransactionBuilder Val) :
    Transaction Val :=
  ⟨b.sourceAccount, b.fee, b.networkPassphrase, b.operations, b.timeout⟩

/-- TransactionBuilder.fromXDR(signedXdr, passphrase): deserialize a
signed envelope against a named network. -/
def TransactionBuilder.fromXDR (signedXdr : String) (passphrase : String) :
    DeserializedTx :=
  ⟨signedXdr, passphrase⟩

/-- The external world a client call runs against: whether
window.freighterApi is present, and the value or rejection each external
awaited call would produce. -/
structure Env (Val : Type) where
  freighterPresent : Bool
  enableResult : Except JsError Unit
  publicKeyResult : Except JsError String
  getAccountResult : String → Except JsError Account
  signResult : XDREnvelope Val → SignOpts → Except JsError String
  submitResult : DeserializedTx → Except JsError String

/-- An observable external event of a client call, in the order the call
performs them. -/
inductive Event (Val : Type) where
  | alert (msg : String)
  | enableCalled
  | extGetPublicKey
  | accountFetch (pubKey : String)
  | txBuild (tx : Transaction Val)
  | signRequest (envelope : XDREnvelope Val) (opts : SignOpts)
  | submitCall (d : DeserializedTx)
  | logged (msg : String)
  | domSetText (elemId : String) (text : String)
deriving DecidableEq

/-- Whether an event is a user-facing alert. -/
def Event.isAlert {Val : Type} : Event Val → Bool
  | Event.alert _ => true
  | _ => false

/-- connectWallet() from frontend/utils/steller.js: if
window.freighterApi is absent, alert once and return undefined;
otherwise await freighterApi.enable() and return its value. -/
def connectWallet {Val : Type} (env : Env Val) :
    List (Event Val) × Except JsError (Option Unit) :=
  if env.freighterPresent = false then
    ([Event.alert "Freighter wallet not found!"], Except.ok none)
  else
    match env.enableResult with
    | Except.ok u => ([Event.enableCalled], Except.ok (some u))
    | Except.error e => ([Event.enableCalled], Except.error e)

/-- getPublicKey() from frontend/utils/steller.js: return
window.freighterApi.getPublicKey() with no availability check; when the
wallet object is absent the property access itself raises a TypeError,
so the returned promise rejects and the extension is never reached. -/
def getPublicKey {Val : Type} (env : Env Val) :
    List (Event Val) × Except JsError String :=
  if env.freighterPresent = false then
    ([], Except.error (JsError.typeError "window.freighterApi is undefined"))
  else
    match env.publicKeyResult with
    | Except.ok k => ([Event.extGetPublicKey], Except.ok k)
    | Except.error e => ([Event.extGetPublicKey], Except.error e)

/-- The deployed leasing contract's address, hard-coded in the lease
manager module. -/
def contractId : String :=
  "CCDP5IJT5AZGLCRNBKYXNQ24E6XQYOWAGB2JQR52OQXE7IIP2HM6PIIV"

/-- The transaction created inside createLease: the TransactionBuilder
chain over the fetched account with fee 100, the test-network
passphrase, one Contract.call operation invoking create_lease with the
three caller-supplied arguments, and a 30-second timeout. -/
def leaseTx {Val : Type} (account : Account) (assetId duration price : Val) :
    Transaction Val :=
  (((TransactionBuilder.start account "100" Networks.TESTNET).addOperation
      (Contract.call contractId "create_lease" [assetId, duration, price])).setTimeout
    30).build

/-- createLease(assetId, duration, price) from the lease manager module:
await window.freighterApi.getPublicKey(), await server.getAccount,
build the transaction, await freighterApi.signTransaction on its XDR
for the TESTNET network, deserialize the signed envelope against
Networks.TESTNET, await server.submitTransaction, log the result.
A rejection at any awaited step aborts the remaining steps and
propagates as the function's own rejection. -/
def createLease {Val : Type} (env : Env Val) (assetId duration price : Val) :
    List (Event Val) × Except JsError String :=
  match getPublicKey env with
  | (t, Except.error e) => (t, Except.error e)
  | (t, Except.ok pubKey) =>
    match env.getAccountResult pubKey with
    | Except.error e => (t ++ [Event.accountFetch pubKey], Except.error e)
    | Except.ok account =>
      let tx := leaseTx account assetId duration price
      match env.signResult tx.toXDR ⟨"TESTNET"⟩ with
      | Except.error e =>
          (t ++ [Event.accountFetch pubKey, Event.txBuild tx,
            Event.signRequest tx.toXDR ⟨"TESTNET"⟩], Except.error e)
      | Except.ok signedTx =>
        let d := TransactionBuilder.fromXDR signedTx Networks.TESTNET
        match env.submitResult d with
        | Except.error e =>
            (t ++ [Event.accountFetch pubKey, Event.txBuild tx,
              Event.signRequest tx.toXDR ⟨"TESTNET"⟩, Event.submitCall d],
             Except.error e)
        | Except.ok txResult =>
            (t ++ [Event.accountFetch pubKey, Event.txBuild tx,
              Event.signRequest tx.toXDR ⟨"TESTNET"⟩, Event.submitCall d,
              Event.logged "Lease created!"],
             Except.ok txResult)

/-- The connect-wallet click handler: await connectWallet(), then await
getPublicKey(), then write the connected address into the DOM. -/
def connectClickHandler {Val : Type} (env : Env Val) :
    List (Event Val) × Except JsError Unit :=
  match connectWallet env with
  | (t1, Except.error e) => (t1, Except.error e)
  | (t1, Except.ok _) =>
    match getPublicKey env with
    | (t2, Except.error e) => (t1 ++ t2, Except.error e)
    | (t2, Except.ok pubKey) =>
        (t1 ++ t2 ++
          [Event.domSetText "wallet-address" ("Connected: " ++ pubKey)],
         Except.ok ())

end RentPayment

namespace RentPayment

/-- Every event in the trace of the wallet-bridge getPublicKey call is
the extension key request itself. -/
theorem getPublicKey_fst_sub {Val : Type} (env : Env Val) (x : Event Val)
    (hx : x ∈ (getPublicKey env).fst) : x = Event.extGetPublicKey := by
  unfold getPublicKey at hx
  split at hx
  · simp at hx
  · split at hx <;> simpa using hx

/-- When the wallet-bridge getPublicKey call resolves, the wallet was
present, the extension produced that key, and the trace is exactly the
one extension key request. -/
theorem getPublicKey_ok {Val : Type} (env : Env Val) (pk : String)
    (h : (getPublicKey env).snd = Except.ok pk) :
    env.freighterPresent = true ∧ env.publicKeyResult = Except.ok pk ∧
      getPublicKey env = ([Event.extGetPublicKey], Except.ok pk) := by
  unfold getPublicKey at h ⊢
  split at h
  · simp at h
  · rename_i hp
    rw [Bool.not_eq_false] at hp
    split at h <;> rename_i heq <;> simp_all

end RentPayment

namespace RentPayment

/-- The transaction built inside createLease, written out field by
field: the fetched account as source, fee 100, the test-network
passphrase, exactly one create_lease operation carrying the three
caller-supplied arguments in order, and a 30-second timeout. -/
theorem leaseTx_spec {Val : Type} (account : Account) (a du p : Val) :
    leaseTx account a du p =
      ⟨account, "100", Networks.TESTNET,
       [Contract.call contractId "create_lease" [a, du, p]], 30⟩ := rfl

/-- Exhaustive characterization of one createLease call: the run either
rejects at the key retrieval, the account fetch, the signature request
or the submission — in each case carrying exactly the events performed
so far and propagating the failing promise's error unchanged — or it
completes with the full six-event trace and the submission result. -/
theorem createLease_run {Val : Type} (env : Env Val) (a du p : Val) :
    (∃ e, (getPublicKey env).snd = Except.error e ∧
       createLease env a du p = ((getPublicKey env).fst, Except.error e)) ∨
    (∃ pk, getPublicKey env = ([Event.extGetPublicKey], Except.ok pk) ∧
      ((∃ e, env.getAccountResult pk = Except.error e ∧
         createLease env a du p =
           ([Event.extGetPublicKey, Event.accountFetch pk], Except.error e)) ∨
       (∃ acct, env.getAccountResult pk = Except.ok acct ∧
         ((∃ e, env.signResult (leaseTx acct a du p).toXDR ⟨"TESTNET"⟩ =
              Except.error e ∧
            createLease env a du p =
              ([Event.extGetPublicKey, Event.accountFetch pk,
                Event.txBuild (leaseTx acct a du p),
                Event.signRequest (leaseTx acct a du p).toXDR ⟨"TESTNET"⟩],
               Except.error e)) ∨
          (∃ s, env.signResult (leaseTx acct a du p).toXDR ⟨"TESTNET"⟩ =
              Except.ok s ∧
            ((∃ e, env.submitResult (TransactionBuilder.fromXDR s
                 Networks.TESTNET) = Except.error e ∧
               createLease env a du p =
                 ([Event.extGetPublicKey, Event.accountFetch pk,
                   Event.txBuild (leaseTx acct a du p),
                   Event.signRequest (leaseTx acct a du p).toXDR ⟨"TESTNET"⟩,
                   Event.submitCall (TransactionBuilder.fromXDR s
                     Networks.TESTNET)],
                  Except.error e)) ∨
             (∃ r, env.submitResult (TransactionBuilder.fromXDR s
                 Networks.TESTNET) = Except.ok r ∧
               createLease env a du p =
                 ([Event.extGetPublicKey, Event.accountFetch pk,
                   Event.txBuild (leaseTx acct a du p),
                   Event.signRequest (leaseTx acct a du p).toXDR ⟨"TESTNET"⟩,
                   Event.submitCall (TransactionBuilder.fromXDR s
                     Networks.TESTNET),
                   Event.logged "Lease created!"],
                  Except.ok r)))))))) := by
  rcases hgp : getPublicKey env with ⟨t, r⟩
  cases r with
  | error e =>
      left
      exact ⟨e, rfl, by unfold createLease; rw [hgp]⟩
  | ok pk =>
      right
      have hok := getPublicKey_ok env pk (by rw [hgp])
      have ht : t = [Event.extGetPublicKey] := by
        have h2 := hok.2.2
        rw [hgp] at h2
        exact ((Prod.mk.injEq _ _ _ _).mp h2).1
      subst ht
      refine ⟨pk, rfl, ?_⟩
      cases hacc : env.getAccountResult pk with
      | error e =>
          left
          exact ⟨e, rfl, by simp [createLease, hgp, hacc]⟩
      | ok acct =>
          right
          refine ⟨acct, rfl, ?_⟩
          cases hsig : env.signResult (leaseTx acct a du p).toXDR ⟨"TESTNET"⟩ with
          | error e =>
              left
              exact ⟨e, rfl, by simp [createLease, hgp, hacc, hsig]⟩
          | ok s =>
              right
              refine ⟨s, rfl, ?_⟩
              cases hsub : env.submitResult (TransactionBuilder.fromXDR s
                  Networks.TESTNET) with
              | error e =>
                  left
                  exact ⟨e, rfl, by simp [createLease, hgp, hacc, hsig, hsub]⟩
              | ok r =>
                  right
                  exact ⟨r, rfl, by simp [createLease, hgp, hacc, hsig, hsub]⟩

end RentPayment

namespace RentPayment

/-- C1: every transaction createLease builds (and hence the one it has
signed and submitted) contains exactly one operation, which invokes the
leasing contract's create_lease entry point with exactly the three
caller-supplied arguments assetId, duration, price, in that order, with
no validation or transformation of any of them (the argument type is
arbitrary and the values are passed through untouched). -/
theorem createLease_single_operation {Val : Type} (env : Env Val)
    (assetId duration price : Val) (tx : Transaction Val)
    (h : Event.txBuild tx ∈ (createLease env assetId duration price).fst) :
    tx.operations =
      [Contract.call contractId "create_lease" [assetId, duration, price]] := by
  rcases createLease_run env assetId duration price with
    ⟨e, -, heq⟩ |
    ⟨pk, -, ⟨e, -, heq⟩ | ⟨acct, -, ⟨e, -, heq⟩ | ⟨s, -, ⟨e, -, heq⟩ | ⟨r, -, heq⟩⟩⟩⟩
  all_goals rw [heq] at h
  · exact absurd (getPublicKey_fst_sub env _ h) (by simp)
  · simp at h
  · simp at h; subst h; rfl
  · simp at h; subst h; rfl
  · simp at h; subst h; rfl

/-- C2: when the wallet extension is absent, connectWallet shows the
not-found alert exactly once, resolves to undefined rather than
rejecting, and never calls the extension's enable. -/
theorem connectWallet_wallet_absent {Val : Type} (env : Env Val)
    (h : env.freighterPresent = false) :
    (connectWallet env).fst = [Event.alert "Freighter wallet not found!"] ∧
    List.countP Event.isAlert (connectWallet env).fst = 1 ∧
    (connectWallet env).snd = Except.ok (none : Option Unit) ∧
    Event.enableCalled ∉ (connectWallet env).fst := by
  simp [connectWallet, h, Event.isAlert]

/-- C3: in the wallet-absent run of the connect click handler,
connectWallet resolves (to undefined) without rejecting, and the
extension's getPublicKey is never invoked anywhere in the flow: the
bridge getPublicKey raises a TypeError on the absent global before any
extension call could happen. -/
theorem connect_flow_wallet_absent {Val : Type} (env : Env Val)
    (h : env.freighterPresent = false) :
    (connectWallet env).snd = Except.ok (none : Option Unit) ∧
    Event.extGetPublicKey ∉ (connectClickHandler env).fst := by
  constructor
  · simp [connectWallet, h]
  · simp [connectClickHandler, connectWallet, getPublicKey, h]

/-- C4: for every input, every transaction createLease builds carries
the fixed base fee 100, the 30-second timeout window and the fixed
test-network passphrase, and every envelope it submits was deserialized
against that same test-network passphrase. -/
theorem createLease_fee_timeout_network {Val : Type} (env : Env Val)
    (assetId duration price : Val) :
    (∀ tx : Transaction Val,
       Event.txBuild tx ∈ (createLease env assetId duration price).fst →
         tx.fee = "100" ∧ tx.timeout = 30 ∧
         tx.networkPassphrase = Networks.TESTNET) ∧
    (∀ d : DeserializedTx,
       Event.submitCall d ∈ (createLease env assetId duration price).fst →
         d.networkPassphrase = Networks.TESTNET) := by
  rcases createLease_run env assetId duration price with
    ⟨e, -, heq⟩ | ⟨pk, -, hrest⟩
  · refine ⟨fun tx hx => ?_, fun d hx => ?_⟩ <;>
      (rw [heq] at hx; exact absurd (getPublicKey_fst_sub env _ hx) (by simp))
  · have hfee : ∀ (acct : Account) (tx : Transaction Val),
        tx = leaseTx acct assetId duration price →
        tx.fee = "100" ∧ tx.timeout = 30 ∧
          tx.networkPassphrase = Networks.TESTNET := by
      rintro acct _ rfl
      exact ⟨rfl, rfl, rfl⟩
    rcases hrest with ⟨e, -, heq⟩ | ⟨acct, -, hrest⟩
    · refine ⟨fun tx hx => ?_, fun d hx => ?_⟩ <;>
        (rw [heq] at hx; simp at hx)
    · rcases hrest with ⟨e, -, heq⟩ | ⟨s, -, hrest⟩
      · refine ⟨fun tx hx => ?_, fun d hx => ?_⟩
        · rw [heq] at hx; simp at hx
          exact hfee acct tx hx
        · rw [heq] at hx; simp at hx
      · rcases hrest with ⟨e, -, heq⟩ | ⟨r, -, heq⟩ <;>
          (refine ⟨fun tx hx => ?_, fun d hx => ?_⟩ <;> rw [heq] at hx <;> simp at hx)
        · exact hfee acct tx hx
        · subst hx; rfl
        · exact hfee acct tx hx
        · subst hx; rfl

/-- C5: a completing createLease call performs exactly one account
fetch, builds exactly one transaction carrying the three literal
arguments, makes exactly one signing request and exactly one
submission, in exactly that order, as witnessed by its full event
trace. -/
theorem createLease_four_steps_in_order {Val : Type} (env : Env Val)
    (assetId duration price : Val) (res : String)
    (h : (createLease env assetId duration price).snd = Except.ok res) :
    ∃ pk acct s,
      env.publicKeyResult = Except.ok pk ∧
      env.getAccountResult pk = Except.ok acct ∧
      env.signResult (leaseTx acct assetId duration price).toXDR
        ⟨"TESTNET"⟩ = Except.ok s ∧
      (createLease env assetId duration price).fst =
        [Event.extGetPublicKey, Event.accountFetch pk,
         Event.txBuild (leaseTx acct assetId duration price),
         Event.signRequest (leaseTx acct assetId duration price).toXDR
           ⟨"TESTNET"⟩,
         Event.submitCall (TransactionBuilder.fromXDR s Networks.TESTNET),
         Event.logged "Lease created!"] := by
  rcases createLease_run env assetId duration price with
    ⟨e, -, heq⟩ |
    ⟨pk, hgp, ⟨e, -, heq⟩ |
      ⟨acct, hacc, ⟨e, -, heq⟩ | ⟨s, hsig, ⟨e, -, heq⟩ | ⟨r, hsub, heq⟩⟩⟩⟩
  · rw [heq] at h; simp at h
  · rw [heq] at h; simp at h
  · rw [heq] at h; simp at h
  · rw [heq] at h; simp at h
  · exact ⟨pk, acct, s, (getPublicKey_ok env pk (by rw [hgp])).2.1, hacc,
      hsig, by rw [heq]⟩

/-- C6: the account snapshot used to build a transaction is retrieved
within the same createLease call, after key retrieval and immediately
before the build, and the built transaction's source account is exactly
the snapshot the ledger returned for that key in this call; createLease
keeps no state between calls, so no earlier snapshot can be reused. -/
theorem createLease_fresh_account_each_call {Val : Type} (env : Env Val)
    (assetId duration price : Val) (tx : Transaction Val)
    (h : Event.txBuild tx ∈ (createLease env assetId duration price).fst) :
    ∃ pk rest,
      env.publicKeyResult = Except.ok pk ∧
      env.getAccountResult pk = Except.ok tx.sourceAccount ∧
      (createLease env assetId duration price).fst =
        Event.extGetPublicKey :: Event.accountFetch pk ::
          Event.txBuild tx :: rest := by
  rcases createLease_run env assetId duration price with
    ⟨e, -, heq⟩ |
    ⟨pk, hgp, ⟨e, -, heq⟩ |
      ⟨acct, hacc, ⟨e, -, heq⟩ | ⟨s, hsig, ⟨e, -, heq⟩ | ⟨r, hsub, heq⟩⟩⟩⟩
  · rw [heq] at h
    exact absurd (getPublicKey_fst_sub env _ h) (by simp)
  · rw [heq] at h; simp at h
  · rw [heq] at h; simp at h
    subst h
    exact ⟨pk, _, (getPublicKey_ok env pk (by rw [hgp])).2.1, hacc, by rw [heq]⟩
  · rw [heq] at h; simp at h
    subst h
    exact ⟨pk, _, (getPublicKey_ok env pk (by rw [hgp])).2.1, hacc, by rw [heq]⟩
  · rw [heq] at h; simp at h
    subst h
    exact ⟨pk, _, (getPublicKey_ok env pk (by rw [hgp])).2.1, hacc, by rw [heq]⟩

/-- C7: every envelope handed to the wallet's signTransaction is
exactly the XDR serialization of a transaction built in the same run,
and every envelope handed to submitTransaction is exactly the
deserialization, against Networks.TESTNET, of the signed envelope the
wallet returned for that signing request. -/
theorem createLease_envelope_unchanged {Val : Type} (env : Env Val)
    (assetId duration price : Val) :
    (∀ (xdr : XDREnvelope Val) (opts : SignOpts),
       Event.signRequest xdr opts ∈
           (createLease env assetId duration price).fst →
       ∃ tx, Event.txBuild tx ∈ (createLease env assetId duration price).fst ∧
         xdr = tx.toXDR) ∧
    (∀ d : DeserializedTx,
       Event.submitCall d ∈ (createLease env assetId duration price).fst →
       ∃ xdr opts s,
         Event.signRequest xdr opts ∈
           (createLease env assetId duration price).fst ∧
         env.signResult xdr opts = Except.ok s ∧
         d = TransactionBuilder.fromXDR s Networks.TESTNET) := by
  rcases createLease_run env assetId duration price with
    ⟨e, -, heq⟩ |
    ⟨pk, hgp, ⟨e, -, heq⟩ |
      ⟨acct, hacc, ⟨e, -, heq⟩ | ⟨s, hsig, ⟨e, -, heq⟩ | ⟨r, hsub, heq⟩⟩⟩⟩
  · refine ⟨fun xdr opts hx => ?_, fun d hx => ?_⟩ <;>
      (rw [heq] at hx; exact absurd (getPublicKey_fst_sub env _ hx) (by simp))
  · refine ⟨fun xdr opts hx => ?_, fun d hx => ?_⟩ <;>
      (rw [heq] at hx; simp at hx)
  · refine ⟨fun xdr opts hx => ?_, fun d hx => ?_⟩
    · rw [heq] at hx; simp at hx
      exact ⟨leaseTx acct assetId duration price, by rw [heq]; simp, hx.1⟩
    · rw [heq] at hx; simp at hx
  · refine ⟨fun xdr opts hx => ?_, fun d hx => ?_⟩
    · rw [heq] at hx; simp at hx
      exact ⟨leaseTx acct assetId duration price, by rw [heq]; simp, hx.1⟩
    · rw [heq] at hx; simp at hx
      subst hx
      exact ⟨(leaseTx acct assetId duration price).toXDR, ⟨"TESTNET"⟩, s,
        by rw [heq]; simp, hsig, rfl⟩
  · refine ⟨fun xdr opts hx => ?_, fun d hx => ?_⟩
    · rw [heq] at hx; simp at hx
      exact ⟨leaseTx acct assetId duration price, by rw [heq]; simp, hx.1⟩
    · rw [heq] at hx; simp at hx
      subst hx
      exact ⟨(leaseTx acct assetId duration price).toXDR, ⟨"TESTNET"⟩, s,
        by rw [heq]; simp, hsig, rfl⟩

/-- C8: when the wallet rejects every signature request (the user
declines), createLease never reaches the submission step: no
submitTransaction call appears in its trace. -/
theorem createLease_declined_no_submit {Val : Type} (env : Env Val)
    (assetId duration price : Val) (e : JsError)
    (hdecl : ∀ xdr opts, env.signResult xdr opts = Except.error e) :
    ∀ d : DeserializedTx,
      Event.submitCall d ∉ (createLease env assetId duration price).fst := by
  intro d hd
  rcases createLease_run env assetId duration price with
    ⟨e2, -, heq⟩ |
    ⟨pk, -, ⟨e2, -, heq⟩ |
      ⟨acct, -, ⟨e2, -, heq⟩ | ⟨s, hsig, ⟨e2, -, heq⟩ | ⟨r, -, heq⟩⟩⟩⟩
  · rw [heq] at hd
    exact absurd (getPublicKey_fst_sub env _ hd) (by simp)
  · rw [heq] at hd; simp at hd
  · rw [heq] at hd; simp at hd
  · rw [hdecl (leaseTx acct assetId duration price).toXDR ⟨"TESTNET"⟩] at hsig
    exact Except.noConfusion hsig
  · rw [hdecl (leaseTx acct assetId duration price).toXDR ⟨"TESTNET"⟩] at hsig
    exact Except.noConfusion hsig

/-- C9: createLease installs no error handling: a rejection of the
account fetch, the signing request or the submission propagates to the
caller unchanged as the rejection of the whole call, and a failed run
shows no alert and logs nothing. -/
theorem createLease_no_error_handling {Val : Type} (env : Env Val)
    (assetId duration price : Val) (e : JsError) :
    (∀ pk, (getPublicKey env).snd = Except.ok pk →
       env.getAccountResult pk = Except.error e →
       createLease env assetId duration price =
         ([Event.extGetPublicKey, Event.accountFetch pk], Except.error e)) ∧
    (∀ pk acct, (getPublicKey env).snd = Except.ok pk →
       env.getAccountResult pk = Except.ok acct →
       env.signResult (leaseTx acct assetId duration price).toXDR
         ⟨"TESTNET"⟩ = Except.error e →
       (createLease env assetId duration price).snd = Except.error e) ∧
    (∀ pk acct s, (getPublicKey env).snd = Except.ok pk →
       env.getAccountResult pk = Except.ok acct →
       env.signResult (leaseTx acct assetId duration price).toXDR
         ⟨"TESTNET"⟩ = Except.ok s →
       env.submitResult (TransactionBuilder.fromXDR s Networks.TESTNET) =
         Except.error e →
       (createLease env assetId duration price).snd = Except.error e) ∧
    ((createLease env assetId duration price).snd = Except.error e →
       (∀ m, Event.alert m ∉ (createLease env assetId duration price).fst) ∧
       (∀ m, Event.logged m ∉ (createLease env assetId duration price).fst)) := by
  refine ⟨?_, ?_, ?_, ?_⟩
  · intro pk h1 h2
    simp [createLease, (getPublicKey_ok env pk h1).2.2, h2]
  · intro pk acct h1 h2 h3
    simp [createLease, (getPublicKey_ok env pk h1).2.2, h2, h3]
  · intro pk acct s h1 h2 h3 h4
    simp [createLease, (getPublicKey_ok env pk h1).2.2, h2, h3, h4]
  · intro herr
    rcases createLease_run env assetId duration price with
      ⟨e2, -, heq⟩ |
      ⟨pk, -, ⟨e2, -, heq⟩ |
        ⟨acct, -, ⟨e2, -, heq⟩ | ⟨s, -, ⟨e2, -, heq⟩ | ⟨r, -, heq⟩⟩⟩⟩
    · refine ⟨fun m hm => ?_, fun m hm => ?_⟩ <;>
        (rw [heq] at hm; exact absurd (getPublicKey_fst_sub env _ hm) (by simp))
    · rw [heq]; simp
    · rw [heq]; simp
    · rw [heq]; simp
    · rw [heq] at herr; simp at herr

/-- C10: unlike connectWallet, the wallet-bridge getPublicKey performs
no availability check: with the wallet object absent it rejects with
the TypeError raised by the property access, invokes nothing on the
extension and shows no alert. -/
theorem getPublicKey_no_availability_check {Val : Type} (env : Env Val)
    (h : env.freighterPresent = false) :
    getPublicKey env =
      (([] : List (Event Val)),
       Except.error (JsError.typeError "window.freighterApi is undefined")) := by
  simp [getPublicKey, h]

end RentPayment

namespace RentPayment

/-- A concrete world in which the wallet is present and every external
call succeeds. -/
def envOk : Env String :=
  ⟨true, Except.ok (), Except.ok "GTEST",
   fun k => Except.ok ⟨k, 7⟩,
   fun _ _ => Except.ok "SIGNED",
   fun _ => Except.ok "RESULT"⟩

/-- The same world with the wallet extension absent. -/
def envAbsent : Env String :=
  { envOk with freighterPresent := false }

/-- The same world with the account fetch rejecting. -/
def envAccountFail : Env String :=
  { envOk with
      getAccountResult := fun _ =>
        Except.error (JsError.reason "account missing") }

/-- The same world with the user declining every signature request. -/
def envDecline : Env String :=
  { envOk with
      signResult := fun _ _ =>
        Except.error (JsError.reason "User declined access") }

/-- C1 witness at a concrete run. -/
theorem createLease_single_operation_witness :
    Event.txBuild (leaseTx (⟨"GTEST", 7⟩ : Account) "asset-42" "30" "100") ∈
      (createLease envOk "asset-42" "30" "100").fst ∧
    (leaseTx (⟨"GTEST", 7⟩ : Account) "asset-42" "30" "100").operations =
      [Contract.call contractId "create_lease" ["asset-42", "30", "100"]] :=
  ⟨by decide,
   createLease_single_operation envOk "asset-42" "30" "100" _ (by decide)⟩

/-- C2 witness at a concrete run. -/
theorem connectWallet_wallet_absent_witness :
    (connectWallet envAbsent).fst =
      [Event.alert "Freighter wallet not found!"] ∧
    List.countP Event.isAlert (connectWallet envAbsent).fst = 1 ∧
    (connectWallet envAbsent).snd = Except.ok (none : Option Unit) ∧
    Event.enableCalled ∉ (connectWallet envAbsent).fst :=
  connectWallet_wallet_absent envAbsent rfl

/-- C3 witness at a concrete run. -/
theorem connect_flow_wallet_absent_witness :
    (connectWallet envAbsent).snd = Except.ok (none : Option Unit) ∧
    Event.extGetPublicKey ∉ (connectClickHandler envAbsent).fst :=
  connect_flow_wallet_absent envAbsent rfl

/-- C4 witness at a concrete run. -/
theorem createLease_fee_timeout_network_witness :
    (leaseTx (⟨"GTEST", 7⟩ : Account) "asset-42" "30" "100").fee = "100" ∧
    (leaseTx (⟨"GTEST", 7⟩ : Account) "asset-42" "30" "100").timeout = 30 ∧
    (leaseTx (⟨"GTEST", 7⟩ : Account) "asset-42" "30" "100").networkPassphrase =
      Networks.TESTNET :=
  (createLease_fee_timeout_network envOk "asset-42" "30" "100").1 _ (by decide)

/-- C5 witness at a concrete run. -/
theorem createLease_four_steps_in_order_witness :
    ∃ pk acct s,
      envOk.publicKeyResult = Except.ok pk ∧
      envOk.getAccountResult pk = Except.ok acct ∧
      envOk.signResult (leaseTx acct "asset-42" "30" "100").toXDR
        ⟨"TESTNET"⟩ = Except.ok s ∧
      (createLease envOk "asset-42" "30" "100").fst =
        [Event.extGetPublicKey, Event.accountFetch pk,
         Event.txBuild (leaseTx acct "asset-42" "30" "100"),
         Event.signRequest (leaseTx acct "asset-42" "30" "100").toXDR
           ⟨"TESTNET"⟩,
         Event.submitCall (TransactionBuilder.fromXDR s Networks.TESTNET),
         Event.logged "Lease created!"] :=
  createLease_four_steps_in_order envOk "asset-42" "30" "100" "RESULT" rfl

/-- C6 witness at a concrete run. -/
theorem createLease_fresh_account_each_call_witness :
    ∃ pk rest,
      envOk.publicKeyResult = Except.ok pk ∧
      envOk.getAccountResult pk = Except.ok
        (leaseTx (⟨"GTEST", 7⟩ : Account) "asset-42" "30" "100").sourceAccount ∧
      (createLease envOk "asset-42" "30" "100").fst =
        Event.extGetPublicKey :: Event.accountFetch pk ::
          Event.txBuild
            (leaseTx (⟨"GTEST", 7⟩ : Account) "asset-42" "30" "100") :: rest :=
  createLease_fresh_account_each_call envOk "asset-42" "30" "100" _ (by decide)

/-- C7 witness at a concrete run. -/
theorem createLease_envelope_unchanged_witness :
    ∃ tx, Event.txBuild tx ∈ (createLease envOk "asset-42" "30" "100").fst ∧
      (leaseTx (⟨"GTEST", 7⟩ : Account) "asset-42" "30" "100").toXDR =
        tx.toXDR :=
  (createLease_envelope_unchanged envOk "asset-42" "30" "100").1
    (leaseTx (⟨"GTEST", 7⟩ : Account) "asset-42" "30" "100").toXDR
    ⟨"TESTNET"⟩ (by decide)

/-- C8 witness at a concrete run. -/
theorem createLease_declined_no_submit_witness :
    Event.submitCall (TransactionBuilder.fromXDR "SIGNED" Networks.TESTNET) ∉
      (createLease envDecline "asset-42" "30" "100").fst :=
  createLease_declined_no_submit envDecline "asset-42" "30" "100"
    (JsError.reason "User declined access") (fun _ _ => rfl) _

/-- C9 witness at a concrete run. -/
theorem createLease_no_error_handling_witness :
    createLease envAccountFail "asset-42" "30" "100" =
      ([Event.extGetPublicKey, Event.accountFetch "GTEST"],
       Except.error (JsError.reason "account missing")) :=
  (createLease_no_error_handling envAccountFail "asset-42" "30" "100"
    (JsError.reason "account missing")).1 "GTEST" rfl rfl

/-- C10 witness at a concrete run. -/
theorem getPublicKey_no_availability_check_witness :
    getPublicKey envAbsent =
      (([] : List (Event String)),
       Except.error (JsError.typeError "window.freighterApi is undefined")) :=
  getPublicKey_no_availability_check envAbsent rfl

end RentPayment
